import Mathlib

/-!
Shallow embedding of the dual-provider OAuth session/token subsystem of the
FRC2713/basecamp repository, and proofs about it.

Modelling conventions, applied uniformly:
- A session (react-router cookie session) is a record of the optional string
  and number fields the routes read and write.  All persistent state lives in
  the browser cookie, so a route's effect on the session is what its response
  carries in `Set-Cookie`: no header means the browser keeps the old cookie.
  `destroySession` on a cookie session storage only returns a removal cookie;
  where the source calls it without attaching the result to the response we
  record the call in a `destroyCalled` flag and an unchanged cookie.
- JavaScript truthiness of an optional string (used as `!x` / `if (x)`) is
  `truthy`: absent and the empty string are falsy.  For the numeric redirect
  counter, `x || 0` is `numOr0` (absent maps to 0; the number 0 maps to 0).
- Network calls (token exchange, token refresh) are modelled by a
  `FetchResult` argument: the response the provider would give, `ok` with a
  token payload or `fail` for any thrown/non-2xx outcome.  `Date.now()` is a
  `now : Int` argument (epoch milliseconds).  Paths that reach the network
  call set a `didExchange` / `didRefresh` flag in the result.
- `process.env` configuration presence is a `creds : Bool` argument (the
  routes only check that the variables are set); client id / redirect URI
  strings are passed where they flow into an authorization URL.
- `URLSearchParams` serialization is modelled as literal key=value
  concatenation; every value that matters to the claims (hex nonces) is
  URL-safe, so percent-encoding is not modelled.
-/

namespace Basecamp

/-- Truthiness of an optional string, as JavaScript sees `!x`: absent
(undefined/null) and the empty string are falsy. -/
def truthy : Option String → Bool
  | none => false
  | some s => !s.isEmpty

/-- The JavaScript pattern `x || d` on an optional string. -/
def strOr (x : Option String) (d : String) : String :=
  match x with
  | none => d
  | some s => if s.isEmpty then d else s

/-- The JavaScript pattern `x || undefined` on an optional string. -/
def strOrNone (x : Option String) : Option String :=
  if truthy x then x else none

/-- The JavaScript pattern `x || 0` on an optional number. -/
def numOr0 : Option Int → Int
  | none => 0
  | some n => n

/-- The session record: the cookie-held fields that the auth routes read and
write (`accessToken`/`refreshToken`/`expiresAt` are the Basecamp tokens, the
`onshape*` triple the Onshape tokens, `oauthState` / `onshapeOauthState` the
per-provider CSRF nonces). -/
structure Session where
  accessToken : Option String
  refreshToken : Option String
  expiresAt : Option Int
  onshapeAccessToken : Option String
  onshapeRefreshToken : Option String
  onshapeExpiresAt : Option Int
  oauthState : Option String
  oauthRedirect : Option String
  signInRedirect : Option String
  onshapeOauthState : Option String
  onshapeAuthRedirectCount : Option Int
  accountId : Option String
  deriving Repr, DecidableEq

/-- A fresh (empty) session, as `getSession` yields for a request without a
valid cookie. -/
def Session.empty : Session :=
  ⟨none, none, none, none, none, none, none, none, none, none, none, none⟩

/-- The OAuth token endpoint response body both providers return. -/
structure TokenResponse where
  access_token : String
  refresh_token : String
  expires_in : Int
  deriving Repr, DecidableEq

/-- Outcome of a network call to a provider token endpoint. -/
inductive FetchResult where
  | ok (tr : TokenResponse)
  | fail
  deriving Repr, DecidableEq

/-- The Set-Cookie header a response carries: none, or a commit of a session
value.  (No modelled route ever attaches the destroy cookie.) -/
inductive SetCookie where
  | noHeader
  | commit (s : Session)
  deriving Repr, DecidableEq

/-- The session the browser holds after a response: unchanged unless the
response carried a Set-Cookie header. -/
def persistedSession (old : Session) : SetCookie → Session
  | .noHeader => old
  | .commit s => s

/-! ### lib/tokenRefresh.ts -/

def REFRESH_BUFFER_MS : Int := 5 * 60 * 1000

/-- `needsRefresh` from lib/tokenRefresh.ts: `if (!expiresAt) return true;
return Date.now() >= expiresAt - REFRESH_BUFFER_MS;` (the number 0 is falsy). -/
def needsRefresh (now : Int) (expiresAt : Option Int) : Bool :=
  match expiresAt with
  | none => true
  | some e => if e = 0 then true else decide (now ≥ e - REFRESH_BUFFER_MS)

/-- What a call to a refresh helper produces for its caller. -/
inductive RefreshOutcome where
  | token (t : String)
  | noToken
  | thrown
  deriving Repr, DecidableEq

/-- Result of a refresh helper: the value returned or exception propagated,
the session object as left behind, and whether the provider refresh call was
reached. -/
structure RefreshStep where
  outcome : RefreshOutcome
  session : Session
  didRefresh : Bool
  deriving Repr, DecidableEq

/-- `refreshOnshapeTokenIfNeededWithSession` from lib/tokenRefresh.ts. -/
def refreshOnshapeTokenIfNeededWithSession (s : Session) (now : Int)
    (creds : Bool) (refreshResult : FetchResult) : RefreshStep :=
  if !truthy s.onshapeAccessToken || !truthy s.onshapeRefreshToken then
    ⟨.noToken, s, false⟩
  else if !needsRefresh now s.onshapeExpiresAt then
    ⟨.token ((s.onshapeAccessToken).getD ""), s, false⟩
  else if !creds then
    ⟨.thrown, s, false⟩
  else
    match refreshResult with
    | .ok tr =>
        ⟨.token tr.access_token,
         { s with onshapeAccessToken := some tr.access_token,
                  onshapeRefreshToken := some tr.refresh_token,
                  onshapeExpiresAt := some (now + tr.expires_in * 1000) },
         true⟩
    | .fail =>
        ⟨.thrown,
         { s with onshapeAccessToken := none,
                  onshapeRefreshToken := none,
                  onshapeExpiresAt := none },
         true⟩

/-- `refreshBasecampTokenIfNeededWithSession` from lib/tokenRefresh.ts. -/
def refreshBasecampTokenIfNeededWithSession (s : Session) (now : Int)
    (creds : Bool) (refreshResult : FetchResult) : RefreshStep :=
  if !truthy s.accessToken || !truthy s.refreshToken then
    ⟨.noToken, s, false⟩
  else if !needsRefresh now s.expiresAt then
    ⟨.token ((s.accessToken).getD ""), s, false⟩
  else if !creds then
    ⟨.thrown, s, false⟩
  else
    match refreshResult with
    | .ok tr =>
        ⟨.token tr.access_token,
         { s with accessToken := some tr.access_token,
                  refreshToken := some tr.refresh_token,
                  expiresAt := some (now + tr.expires_in * 1000) },
         true⟩
    | .fail =>
        ⟨.thrown,
         { s with accessToken := none,
                  refreshToken := none,
                  expiresAt := none },
         true⟩

/-- `isOnshapeAuthenticated` from lib/session.ts: `!!session.get("onshapeAccessToken")`. -/
def isOnshapeAuthenticated (s : Session) : Bool :=
  truthy s.onshapeAccessToken

/-- `isBasecampAuthenticated` from lib/session.ts: `!!session.get("accessToken")`. -/
def isBasecampAuthenticated (s : Session) : Bool :=
  truthy s.accessToken

/-! ### Authorization URLs (lib/basecampApi/auth.ts and lib/onshapeApi/auth.ts) -/

def BASECAMP_AUTHORIZATION_URL : String :=
  "https://launchpad.37signals.com/authorization/new"

def ONSHAPE_AUTHORIZATION_URL : String :=
  "https://oauth.onshape.com/oauth/authorize"

/-- `getAuthorizationUrl` from lib/basecampApi/auth.ts: the `state` parameter
is appended only when the argument is truthy. -/
def basecampAuthorizationUrl (redirectUri clientId : String)
    (state : Option String) : String :=
  let base := BASECAMP_AUTHORIZATION_URL ++ "?type=web_server&client_id="
      ++ clientId ++ "&redirect_uri=" ++ redirectUri
  if truthy state then base ++ "&state=" ++ state.getD "" else base

/-- `getAuthorizationUrl` from lib/onshapeApi/auth.ts: fixed scopes, and the
`state` parameter is appended only when the argument is truthy. -/
def onshapeAuthorizationUrl (redirectUri clientId : String)
    (state : Option String) : String :=
  let base := ONSHAPE_AUTHORIZATION_URL ++ "?response_type=code&client_id="
      ++ clientId ++ "&redirect_uri=" ++ redirectUri
      ++ "&scope=OAuth2ReadUserInfo+OAuth2ReadDocuments"
  if truthy state then base ++ "&state=" ++ state.getD "" else base

/-! ### routes/auth.exchange.tsx — the opener-invoked Basecamp token exchange -/

/-- The JSON/HTTP responses the exchange action can produce. -/
inductive ExchangeResp where
  | noCode
  | noState
  | invalidState
  | missingEnv
  | success (redirectTo : String)
  | exchangeFailed
  deriving Repr, DecidableEq

/-- Result of the exchange action: the response, its Set-Cookie header, and
whether the provider token-exchange call was reached. -/
structure ExchangeOut where
  resp : ExchangeResp
  cookie : SetCookie
  didExchange : Bool
  deriving Repr, DecidableEq

/-- The `action` of routes/auth.exchange.tsx (POST body `code`, `state`;
`exchange` is the outcome `exchangeCodeForToken` would have).  On success the
Basecamp token triple is written, the redirect target read, and the nonce and
redirect marker removed, all committed in one Set-Cookie; every failure
response carries no Set-Cookie. -/
def authExchangeAction (s : Session) (code state : Option String)
    (creds : Bool) (exchange : FetchResult) (now : Int) : ExchangeOut :=
  if !truthy code then ⟨.noCode, .noHeader, false⟩
  else if !truthy state then ⟨.noState, .noHeader, false⟩
  else if !truthy s.oauthState || state ≠ s.oauthState then
    ⟨.invalidState, .noHeader, false⟩
  else if !creds then ⟨.missingEnv, .noHeader, false⟩
  else
    match exchange with
    | .ok tr =>
        let s1 : Session :=
          { s with accessToken := some tr.access_token,
                   refreshToken := some tr.refresh_token,
                   expiresAt := some (now + tr.expires_in * 1000) }
        let redirectTo := strOr s1.oauthRedirect "/"
        let s2 : Session := { s1 with oauthState := none, oauthRedirect := none }
        ⟨.success redirectTo, .commit s2, true⟩
    | .fail => ⟨.exchangeFailed, .noHeader, true⟩

/-! ### The Onshape callback route (loader of auth.onshape.callback) -/

/-- The responses the Onshape callback loader can produce. -/
inductive CallbackResp where
  | errorRedirect (msg : String)
  | restartRedirect
  | signinRedirect
  | envError
  deriving Repr, DecidableEq

/-- Result of the Onshape callback loader.  `destroyCalled` records that the
route invoked `destroySession`; on a cookie session store that call only
returns a removal cookie, and this route never attaches it, so the cookie
field stays `noHeader` on those paths. -/
structure CallbackOut where
  resp : CallbackResp
  cookie : SetCookie
  didExchange : Bool
  destroyCalled : Bool
  deriving Repr, DecidableEq

/-- The Onshape OAuth callback loader (the auth.onshape.callback variant with
the session-lost restart branch): validates `error`, `code` and `state`
against `onshapeOauthState`, exchanges the code, stores the Onshape token
triple, clears the nonce and the redirect counter, and redirects to /signin;
the no-nonce case restarts at /auth/onshape, and the exchange-failure case
calls `destroySession` and redirects to an error page. -/
def onshapeCallbackLoader (s : Session) (code state error : Option String)
    (creds : Bool) (exchange : FetchResult) (now : Int) : CallbackOut :=
  if truthy error then
    ⟨.errorRedirect (error.getD ""), .noHeader, false, false⟩
  else if !truthy code then
    ⟨.errorRedirect "No authorization code received", .noHeader, false, false⟩
  else if !truthy state || state ≠ s.onshapeOauthState then
    if truthy code && !truthy s.onshapeOauthState then
      ⟨.restartRedirect, .noHeader, false, true⟩
    else
      ⟨.errorRedirect "Invalid state parameter. Please try again.",
       .noHeader, false, false⟩
  else if !creds then ⟨.envError, .noHeader, false, false⟩
  else
    match exchange with
    | .ok tr =>
        let s1 : Session :=
          { s with onshapeAccessToken := some tr.access_token,
                   onshapeRefreshToken := some tr.refresh_token,
                   onshapeExpiresAt := some (now + tr.expires_in * 1000),
                   onshapeOauthState := none,
                   onshapeAuthRedirectCount := none }
        ⟨.signinRedirect, .commit s1, true, false⟩
    | .fail =>
        ⟨.errorRedirect "Failed to exchange authorization code",
         .noHeader, true, true⟩

/-! ### routes/auth.onshape.tsx — the Onshape flow initiator -/

/-- The responses the Onshape initiator loader can produce. -/
inductive InitResp where
  | redirectTo (dest : String)
  | envError
  | authRedirect (url : String)
  deriving Repr, DecidableEq

structure InitOut where
  resp : InitResp
  cookie : SetCookie
  deriving Repr, DecidableEq

/-- The loader of routes/auth.onshape.tsx: stores the `redirect` query
parameter as `signInRedirect` when provided, short-circuits to the stored
destination when an Onshape access token is already present, and otherwise
stores a freshly generated nonce (`fresh`, the `randomBytes(32).toString("hex")`
value) and redirects to the Onshape authorization URL built from it. -/
def authOnshapeLoader (s : Session) (redirectParam : Option String)
    (clientId redirectUri : String) (fresh : String) : InitOut :=
  let s0 : Session :=
    if truthy redirectParam then { s with signInRedirect := redirectParam } else s
  if truthy s0.onshapeAccessToken then
    ⟨.redirectTo (strOr s0.signInRedirect "/"), .commit s0⟩
  else if clientId.isEmpty || redirectUri.isEmpty then
    ⟨.envError, .noHeader⟩
  else
    let s1 : Session := { s0 with onshapeOauthState := some fresh }
    ⟨.authRedirect (onshapeAuthorizationUrl redirectUri clientId (some fresh)),
     .commit s1⟩

/-! ### routes/auth.tsx — the Basecamp flow initiator (popup mode) -/

/-- The responses the Basecamp auth loader can produce: the short-circuit
redirect, the env failure, or the popup page data with an optional
authorization URL. -/
inductive AuthLoaderResp where
  | redirectTo (dest : String)
  | envError
  | page (authUrl : Option String) (redirectTo : String)
  deriving Repr, DecidableEq

structure AuthLoaderOut where
  resp : AuthLoaderResp
  cookie : SetCookie
  deriving Repr, DecidableEq

/-- The loader of routes/auth.tsx: when a Basecamp access token is already
stored it commits the session unchanged and redirects to the requested
target; otherwise it renders the popup page, with an authorization URL only
when a `state` query parameter is present. -/
def authLoader (s : Session) (redirectParam stateParam : Option String)
    (clientId redirectUri : String) : AuthLoaderOut :=
  let redirectTo := strOr redirectParam "/"
  if truthy s.accessToken then
    ⟨.redirectTo redirectTo, .commit s⟩
  else if clientId.isEmpty || redirectUri.isEmpty then
    ⟨.envError, .noHeader⟩
  else if truthy stateParam then
    ⟨.page (some (basecampAuthorizationUrl redirectUri clientId stateParam))
       redirectTo, .noHeader⟩
  else
    ⟨.page none redirectTo, .noHeader⟩

/-- Result of the auth.tsx `action`: the JSON response carries the nonce. -/
structure AuthActionOut where
  state : String
  cookie : SetCookie
  deriving Repr, DecidableEq

/-- The `action` of routes/auth.tsx: always generates a fresh nonce (`fresh`),
stores it as `oauthState` (overwriting any pending one), stores the redirect
target when it is truthy and not "/", commits, and returns the nonce. -/
def authAction (s : Session) (redirectTo : Option String)
    (fresh : String) : AuthActionOut :=
  let s1 : Session := { s with oauthState := some fresh }
  let s2 : Session :=
    if truthy redirectTo && redirectTo ≠ some "/" then
      { s1 with oauthRedirect := redirectTo }
    else s1
  ⟨fresh, .commit s2⟩

/-! ### routes/home.tsx — the dual-auth gate loader -/

/-- The responses the home loader can produce: the rendered page data
(`onshapeAuthenticated`, `basecampAuthenticated`, optional error message) or
the automatic redirect to /auth/onshape. -/
inductive HomeResp where
  | data (onshapeAuth basecampAuth : Bool) (error : Option String)
  | redirectAuth
  deriving Repr, DecidableEq

structure HomeOut where
  resp : HomeResp
  cookie : SetCookie
  deriving Repr, DecidableEq

/-- The terminal message the gate shows when the redirect bound is hit. -/
def onshapeLoopError : String :=
  "Unable to authenticate with Onshape. Please refresh the page or try opening in a new window."

/-- The loader of routes/home.tsx (dual-auth variant).  `errorParam` is the
`error` query parameter (`searchParams.has` distinguishes present-but-empty
from absent).  When an error is present the counter is unset on the
in-memory session and the page renders; when Onshape is unauthenticated the
counter gates at most two automatic redirects to /auth/onshape; otherwise
the counter is unset and a refresh-if-needed pass runs for both providers
inside one try/catch.  Only the redirect branch builds a `redirect(...)`
Response with a real `Set-Cookie` header; the three other branches return a
plain data object whose `headers` property React Router v7 never attaches
as a response header (the route has no `headers` export), so those
responses carry no Set-Cookie and their in-memory session mutations (the
counter unsets and any refreshed tokens) are never persisted — they are
therefore not part of the response model. -/
def homeLoader (s : Session) (errorParam : Option String) (creds : Bool)
    (onshapeRefresh basecampRefresh : FetchResult) (now : Int) : HomeOut :=
  if errorParam.isSome then
    { resp := .data false (truthy s.accessToken) (strOrNone errorParam),
      cookie := .noHeader }
  else if !truthy s.onshapeAccessToken then
    let redirectCount := numOr0 s.onshapeAuthRedirectCount
    if redirectCount < 2 then
      { resp := .redirectAuth,
        cookie := .commit { s with onshapeAuthRedirectCount := some (redirectCount + 1) } }
    else
      { resp := .data false false (some onshapeLoopError),
        cookie := .noHeader }
  else
    { resp := .data true (truthy s.accessToken) none, cookie := .noHeader }

/-- One protected-page request step: the session the browser holds after the
home loader's response. -/
def homeNext (s : Session) (errorParam : Option String) (creds : Bool)
    (onshapeRefresh basecampRefresh : FetchResult) (now : Int) : Session :=
  persistedSession s (homeLoader s errorParam creds onshapeRefresh basecampRefresh now).cookie

/-! ### Helper lemmas -/

/-- When `needsRefresh` says no refresh is needed, an expiry is stored and it
is strictly in the future (in fact beyond the whole skew window). -/
theorem needsRefresh_false_future (now : Int) (e? : Option Int)
    (h : needsRefresh now e? = false) :
    ∃ e, e? = some e ∧ now + REFRESH_BUFFER_MS ≤ e ∧ now < e := by
  match e? with
  | none => simp [needsRefresh] at h
  | some e =>
    refine ⟨e, rfl, ?_⟩
    by_cases he : e = 0
    · simp [needsRefresh, he] at h
    · simp [needsRefresh, he, REFRESH_BUFFER_MS] at h
      unfold REFRESH_BUFFER_MS
      omega

end Basecamp

namespace Basecamp

/-- C10: when a provider's access token is present but its refresh token is
absent, the refresh helper returns null without reaching the provider refresh
call and without touching any session field, for any outcome the refresh call
would have had — while `isAuthenticated` for that provider still reports true,
since it checks only access-token presence.  (Stated for both providers.) -/
theorem accessToken_without_refreshToken_null (s : Session) (now : Int)
    (r : FetchResult)
    (hoa : truthy s.onshapeAccessToken = true)
    (hor : truthy s.onshapeRefreshToken = false)
    (hba : truthy s.accessToken = true)
    (hbr : truthy s.refreshToken = false) :
    refreshOnshapeTokenIfNeededWithSession s now true r = ⟨.noToken, s, false⟩
    ∧ isOnshapeAuthenticated s = true
    ∧ refreshBasecampTokenIfNeededWithSession s now true r = ⟨.noToken, s, false⟩
    ∧ isBasecampAuthenticated s = true := by
  refine ⟨?_, ?_, ?_, ?_⟩
  · unfold refreshOnshapeTokenIfNeededWithSession
    simp [hoa, hor]
  · simpa [isOnshapeAuthenticated] using hoa
  · unfold refreshBasecampTokenIfNeededWithSession
    simp [hba, hbr]
  · simpa [isBasecampAuthenticated] using hba

/-- A concrete session holding only the two access tokens. -/
def c10Session : Session :=
  { Session.empty with onshapeAccessToken := some "A", accessToken := some "B" }

/-- Witness for `accessToken_without_refreshToken_null` at a concrete
session holding only access tokens. -/
theorem accessToken_without_refreshToken_null_witness :
    refreshOnshapeTokenIfNeededWithSession c10Session 0 true .fail
      = ⟨.noToken, c10Session, false⟩
    ∧ isOnshapeAuthenticated c10Session = true :=
  ⟨(accessToken_without_refreshToken_null c10Session 0 .fail rfl rfl rfl rfl).1,
   (accessToken_without_refreshToken_null c10Session 0 .fail rfl rfl rfl rfl).2.1⟩

/-- C7: a failed refresh for one provider clears exactly that provider's
three token fields; the resulting session is the input session with only
those three fields removed, so the other provider's tokens and every other
session field are untouched.  (Stated for a session holding both providers'
token pairs, in both directions.) -/
theorem refreshFailure_field_isolation (s : Session) (now : Int)
    (hoa : truthy s.onshapeAccessToken = true)
    (hor : truthy s.onshapeRefreshToken = true)
    (hba : truthy s.accessToken = true)
    (hbr : truthy s.refreshToken = true)
    (hne1 : needsRefresh now s.onshapeExpiresAt = true)
    (hne2 : needsRefresh now s.expiresAt = true) :
    ((refreshOnshapeTokenIfNeededWithSession s now true .fail).session
        = { s with onshapeAccessToken := none, onshapeRefreshToken := none,
                   onshapeExpiresAt := none }
      ∧ (refreshOnshapeTokenIfNeededWithSession s now true .fail).session.accessToken
          = s.accessToken
      ∧ (refreshOnshapeTokenIfNeededWithSession s now true .fail).session.refreshToken
          = s.refreshToken
      ∧ (refreshOnshapeTokenIfNeededWithSession s now true .fail).session.expiresAt
          = s.expiresAt
      ∧ (refreshOnshapeTokenIfNeededWithSession s now true .fail).outcome = .thrown)
    ∧ ((refreshBasecampTokenIfNeededWithSession s now true .fail).session
        = { s with accessToken := none, refreshToken := none, expiresAt := none }
      ∧ (refreshBasecampTokenIfNeededWithSession s now true .fail).session.onshapeAccessToken
          = s.onshapeAccessToken
      ∧ (refreshBasecampTokenIfNeededWithSession s now true .fail).session.onshapeRefreshToken
          = s.onshapeRefreshToken
      ∧ (refreshBasecampTokenIfNeededWithSession s now true .fail).session.onshapeExpiresAt
          = s.onshapeExpiresAt
      ∧ (refreshBasecampTokenIfNeededWithSession s now true .fail).outcome = .thrown) := by
  constructor
  · unfold refreshOnshapeTokenIfNeededWithSession
    simp [hoa, hor, hne1]
  · unfold refreshBasecampTokenIfNeededWithSession
    simp [hba, hbr, hne2]

/-- A concrete session with both token pairs present and expired. -/
def c7Session : Session :=
  { Session.empty with onshapeAccessToken := some "OA", onshapeRefreshToken := some "OR",
                       onshapeExpiresAt := some 1, accessToken := some "BA",
                       refreshToken := some "BR", expiresAt := some 1 }

/-- Witness for `refreshFailure_field_isolation` at a concrete session with
both token pairs expired. -/
theorem refreshFailure_field_isolation_witness :
    (refreshOnshapeTokenIfNeededWithSession c7Session 100 true .fail).session.accessToken
      = some "BA" :=
  ((refreshFailure_field_isolation c7Session 100 rfl rfl rfl rfl (by decide)
      (by decide)).1.2.1).trans rfl

/-- C3: the get-valid-token operation for Onshape.  A returned token always
has a stored expiry not in the past (given non-negative `expires_in` in any
refresh response); a missing token pair yields null with the session
untouched; outside the five-minute skew window the stored token is returned
unchanged (and its expiry is in the future); inside the window (or with no
stored expiry) the refresh call is reached before returning, and on success
the whole (access, refresh, expiry) triple is rewritten together with expiry
`now + expires_in * 1000`, while on failure all three fields are cleared and
the failure propagates as a thrown error. -/
theorem getValidOnshapeToken_spec (s : Session) (now : Int) (r : FetchResult) :
    ((∀ tr, r = .ok tr → 0 ≤ tr.expires_in) → ∀ tok,
        (refreshOnshapeTokenIfNeededWithSession s now true r).outcome = .token tok →
        ∃ e, (refreshOnshapeTokenIfNeededWithSession s now true r).session.onshapeExpiresAt
              = some e ∧ now ≤ e)
    ∧ ((truthy s.onshapeAccessToken = false ∨ truthy s.onshapeRefreshToken = false) →
        refreshOnshapeTokenIfNeededWithSession s now true r = ⟨.noToken, s, false⟩)
    ∧ (truthy s.onshapeAccessToken = true → truthy s.onshapeRefreshToken = true →
        needsRefresh now s.onshapeExpiresAt = false →
        refreshOnshapeTokenIfNeededWithSession s now true r
            = ⟨.token (s.onshapeAccessToken.getD ""), s, false⟩
          ∧ ∃ e, s.onshapeExpiresAt = some e ∧ now < e)
    ∧ (truthy s.onshapeAccessToken = true → truthy s.onshapeRefreshToken = true →
        needsRefresh now s.onshapeExpiresAt = true →
        (refreshOnshapeTokenIfNeededWithSession s now true r).didRefresh = true
          ∧ (∀ tr, r = .ok tr →
              refreshOnshapeTokenIfNeededWithSession s now true r
                = ⟨.token tr.access_token,
                   { s with onshapeAccessToken := some tr.access_token,
                            onshapeRefreshToken := some tr.refresh_token,
                            onshapeExpiresAt := some (now + tr.expires_in * 1000) },
                   true⟩)
          ∧ (r = .fail →
              refreshOnshapeTokenIfNeededWithSession s now true r
                = ⟨.thrown,
                   { s with onshapeAccessToken := none, onshapeRefreshToken := none,
                            onshapeExpiresAt := none },
                   true⟩)) := by
  by_cases hoa : truthy s.onshapeAccessToken
  · by_cases hor : truthy s.onshapeRefreshToken
    · by_cases hnr : needsRefresh now s.onshapeExpiresAt
      · -- refresh path
        refine ⟨?_, ?_, ?_, ?_⟩
        · intro hok tok htok
          cases r with
          | ok tr =>
            have h1000 : (0:Int) ≤ tr.expires_in * 1000 := by
              have := hok tr rfl
              positivity
            unfold refreshOnshapeTokenIfNeededWithSession at htok ⊢
            simp [hoa, hor, hnr] at htok ⊢
            omega
          | fail =>
            unfold refreshOnshapeTokenIfNeededWithSession at htok
            simp [hoa, hor, hnr] at htok
        · intro h; rcases h with h | h <;> simp [h] at hoa hor
        · intro _ _ h; rw [h] at hnr; simp at hnr
        · intro _ _ _
          refine ⟨?_, ?_, ?_⟩
          · cases r <;> · unfold refreshOnshapeTokenIfNeededWithSession
                          simp [hoa, hor, hnr]
          · intro tr hr
            subst hr
            unfold refreshOnshapeTokenIfNeededWithSession
            simp [hoa, hor, hnr]
          · intro hr
            subst hr
            unfold refreshOnshapeTokenIfNeededWithSession
            simp [hoa, hor, hnr]
      · -- token still fresh
        have hfresh := needsRefresh_false_future now s.onshapeExpiresAt (by simpa using hnr)
        obtain ⟨e, he, _, hlt⟩ := hfresh
        refine ⟨?_, ?_, ?_, ?_⟩
        · intro _ tok htok
          unfold refreshOnshapeTokenIfNeededWithSession at htok ⊢
          simp [hoa, hor, hnr] at htok ⊢
          exact ⟨e, he, le_of_lt hlt⟩
        · intro h; rcases h with h | h <;> simp [h] at hoa hor
        · intro _ _ _
          constructor
          · unfold refreshOnshapeTokenIfNeededWithSession
            simp [hoa, hor, hnr]
          · exact ⟨e, he, hlt⟩
        · intro _ _ h; rw [h] at hnr; simp at hnr
    · -- no refresh token
      have hres : refreshOnshapeTokenIfNeededWithSession s now true r
          = ⟨.noToken, s, false⟩ := by
        unfold refreshOnshapeTokenIfNeededWithSession
        simp at hor
        simp [hor]
      refine ⟨?_, fun _ => hres, ?_, ?_⟩
      · intro _ tok htok; rw [hres] at htok; simp at htok
      · intro _ h; simp [h] at hor
      · intro _ h; simp [h] at hor
  · -- no access token
    have hres : refreshOnshapeTokenIfNeededWithSession s now true r
        = ⟨.noToken, s, false⟩ := by
      unfold refreshOnshapeTokenIfNeededWithSession
      simp at hoa
      simp [hoa]
    refine ⟨?_, fun _ => hres, ?_, ?_⟩
    · intro _ tok htok; rw [hres] at htok; simp at htok
    · intro h; simp [h] at hoa
    · intro h; simp [h] at hoa

/-- C5: a callback that presents a state different from a pending nonce is a
terminal invalid-state failure in both handlers: the provider token-exchange
call is never reached and no Set-Cookie is attached (so the session, nonce
included, is unchanged).  Stated for the Basecamp exchange action (pending
`oauthState`) and the Onshape callback loader (pending `onshapeOauthState`),
for a callback that does carry a code and a state and no error. -/
theorem mismatchedState_terminal (s : Session) (code state : Option String)
    (creds : Bool) (ex : FetchResult) (now : Int)
    (hcode : truthy code = true) (hstate : truthy state = true)
    (hb : truthy s.oauthState = true) (hdb : state ≠ s.oauthState)
    (ho : truthy s.onshapeOauthState = true) (hdo : state ≠ s.onshapeOauthState) :
    authExchangeAction s code state creds ex now = ⟨.invalidState, .noHeader, false⟩
    ∧ onshapeCallbackLoader s code state none creds ex now
        = ⟨.errorRedirect "Invalid state parameter. Please try again.",
           .noHeader, false, false⟩ := by
  constructor
  · unfold authExchangeAction
    simp [hcode, hstate, hdb]
  · unfold onshapeCallbackLoader
    simp [hcode, hstate, hdo, ho, show truthy none = false from rfl]

/-- Witness for `mismatchedState_terminal`: both nonces pending, the callback
presents a different state. -/
theorem mismatchedState_terminal_witness :
    authExchangeAction
        { Session.empty with oauthState := some "good", onshapeOauthState := some "good" }
        (some "c") (some "evil") true (.ok ⟨"T", "R", 10⟩) 0
      = ⟨.invalidState, .noHeader, false⟩ :=
  (mismatchedState_terminal
    { Session.empty with oauthState := some "good", onshapeOauthState := some "good" }
    (some "c") (some "evil") true (.ok ⟨"T", "R", 10⟩) 0
    rfl rfl rfl (by decide) rfl (by decide)).1

/-- A concrete session with a pending Onshape nonce and no tokens. -/
def c8Session : Session := { Session.empty with onshapeOauthState := some "aa" }

/-- C8 counterexample: with nonce "aa" already pending, a new flow-initiation
request does not reuse it — the Onshape initiator stores the freshly
generated nonce "bb" and produces the authorization URL built from "bb",
which differs from the URL the pending nonce had produced. -/
theorem initiator_nonce_reuse_cex :
    (authOnshapeLoader c8Session none "cid" "ruri" "bb").cookie
        = .commit { c8Session with onshapeOauthState := some "bb" }
    ∧ (authOnshapeLoader c8Session none "cid" "ruri" "bb").resp
        = .authRedirect (onshapeAuthorizationUrl "ruri" "cid" (some "bb"))
    ∧ ({ c8Session with onshapeOauthState := some "bb" }).onshapeOauthState
        ≠ c8Session.onshapeOauthState
    ∧ onshapeAuthorizationUrl "ruri" "cid" (some "bb")
        ≠ onshapeAuthorizationUrl "ruri" "cid" (some "aa") := by
  refine ⟨rfl, rfl, by decide, by decide⟩

/-- The Onshape initiator loader, on an unauthenticated session with the
configuration present, stores the freshly generated nonce and redirects to
the authorization URL built from it. -/
theorem authOnshapeLoader_mints_nonce (s : Session)
    (redirectParam : Option String) (clientId redirectUri fresh : String)
    (htok : truthy s.onshapeAccessToken = false)
    (hcid : clientId.isEmpty = false) (huri : redirectUri.isEmpty = false) :
    ∃ s1, authOnshapeLoader s redirectParam clientId redirectUri fresh
        = ⟨.authRedirect (onshapeAuthorizationUrl redirectUri clientId (some fresh)),
           .commit s1⟩
      ∧ s1.onshapeOauthState = some fresh := by
  by_cases hr : truthy redirectParam
  · refine ⟨{ s with signInRedirect := redirectParam,
                     onshapeOauthState := some fresh }, ?_, rfl⟩
    unfold authOnshapeLoader
    simp [hr, htok, hcid, huri]
  · refine ⟨{ s with onshapeOauthState := some fresh }, ?_, rfl⟩
    unfold authOnshapeLoader
    simp at hr
    simp [hr, htok, hcid, huri]

/-- C8 as amended: on every flow-initiation request for a provider that is
not yet authenticated, the initiator generates and stores a fresh nonce —
overwriting any pending one — and the authorization URL is built from the
fresh nonce.  Stated for the Onshape initiator loader and the Basecamp
initiator action. -/
theorem initiator_generates_fresh_nonce (s : Session)
    (redirectParam redirectBody : Option String)
    (clientId redirectUri fresh : String)
    (htok : truthy s.onshapeAccessToken = false)
    (hcid : clientId.isEmpty = false) (huri : redirectUri.isEmpty = false) :
    (∃ s1, authOnshapeLoader s redirectParam clientId redirectUri fresh
          = ⟨.authRedirect (onshapeAuthorizationUrl redirectUri clientId (some fresh)),
             .commit s1⟩
        ∧ s1.onshapeOauthState = some fresh)
    ∧ (∃ s2, (authAction s redirectBody fresh).cookie = .commit s2
        ∧ s2.oauthState = some fresh
        ∧ (authAction s redirectBody fresh).state = fresh) := by
  constructor
  · exact authOnshapeLoader_mints_nonce s redirectParam clientId redirectUri fresh
      htok hcid huri
  · by_cases hr : truthy redirectBody && redirectBody ≠ some "/"
    · refine ⟨{ s with oauthState := some fresh, oauthRedirect := redirectBody },
        ?_, rfl, rfl⟩
      unfold authAction
      simp only [hr]
      simp at hr
      simp [hr]
    · refine ⟨{ s with oauthState := some fresh }, ?_, rfl, rfl⟩
      unfold authAction
      simp only [Bool.and_eq_true, decide_eq_true_eq] at hr
      by_cases h1 : truthy redirectBody
      · have h2 : redirectBody = some "/" := by
          by_contra h2
          exact hr ⟨h1, h2⟩
        simp [h1, h2]
      · simp at h1
        simp [h1]

/-- Witness for `initiator_generates_fresh_nonce`: the pending nonce "aa" is
replaced by the fresh nonce "bb". -/
theorem initiator_generates_fresh_nonce_witness :
    ∃ s1, authOnshapeLoader c8Session none "cid" "ruri" "bb"
        = ⟨.authRedirect (onshapeAuthorizationUrl "ruri" "cid" (some "bb")), .commit s1⟩
      ∧ s1.onshapeOauthState = some "bb" :=
  (initiator_generates_fresh_nonce c8Session none none "cid" "ruri" "bb"
    rfl rfl rfl).1

/-- A concrete session already holding an Onshape access token. -/
def c9Session : Session := { Session.empty with onshapeAccessToken := some "T" }

/-- C9 counterexample: the Onshape initiator, asked for target "/x" while an
Onshape token is already stored, commits a session that differs from the one
it loaded (`signInRedirect` was written before the short-circuit), refuting
that the session is committed unchanged with no field written. -/
theorem shortCircuit_unchanged_cex :
    (authOnshapeLoader c9Session (some "/x") "cid" "ruri" "bb").resp = .redirectTo "/x"
    ∧ (authOnshapeLoader c9Session (some "/x") "cid" "ruri" "bb").cookie
        = .commit { c9Session with signInRedirect := some "/x" }
    ∧ { c9Session with signInRedirect := some "/x" } ≠ c9Session := by
  refine ⟨rfl, rfl, by decide⟩

/-- C9 as amended: when the requested provider already has a stored access
token, the initiator short-circuits with a redirect and starts no new flow
and writes no nonce; the Basecamp initiator loader commits the session
unchanged and redirects to the requested target, while the Onshape initiator
loader first stores the requested redirect target as `signInRedirect` (when
one is provided; otherwise it too commits the session unchanged) and
redirects to the stored destination. -/
theorem shortCircuit_no_new_flow (s : Session)
    (redirectParam stateParam : Option String)
    (clientId redirectUri fresh : String)
    (hb : truthy s.accessToken = true)
    (ho : truthy s.onshapeAccessToken = true) :
    authLoader s redirectParam stateParam clientId redirectUri
        = ⟨.redirectTo (strOr redirectParam "/"), .commit s⟩
    ∧ (∃ s0, authOnshapeLoader s redirectParam clientId redirectUri fresh
          = ⟨.redirectTo (strOr s0.signInRedirect "/"), .commit s0⟩
        ∧ s0.onshapeOauthState = s.onshapeOauthState
        ∧ s0.onshapeAccessToken = s.onshapeAccessToken
        ∧ s0.accessToken = s.accessToken
        ∧ s0.refreshToken = s.refreshToken
        ∧ s0.expiresAt = s.expiresAt
        ∧ (truthy redirectParam = true → s0 = { s with signInRedirect := redirectParam })
        ∧ (truthy redirectParam = false → s0 = s)) := by
  constructor
  · unfold authLoader
    simp [hb]
  · by_cases hr : truthy redirectParam
    · refine ⟨{ s with signInRedirect := redirectParam }, ?_, rfl, rfl, rfl, rfl, rfl,
        fun _ => rfl, ?_⟩
      · unfold authOnshapeLoader
        simp [hr, ho]
      · intro h; rw [hr] at h; cases h
    · refine ⟨s, ?_, rfl, rfl, rfl, rfl, rfl, ?_, fun _ => rfl⟩
      · unfold authOnshapeLoader
        simp at hr
        simp [hr, ho]
      · intro h
        simp at hr
        rw [h] at hr
        cases hr

/-- Witness for `shortCircuit_no_new_flow` at a session authenticated to
both providers. -/
theorem shortCircuit_no_new_flow_witness :
    authLoader { c9Session with accessToken := some "B" } (some "/x") none "cid" "ruri"
      = ⟨.redirectTo "/x", .commit { c9Session with accessToken := some "B" }⟩ :=
  (shortCircuit_no_new_flow { c9Session with accessToken := some "B" }
    (some "/x") none "cid" "ruri" "bb" rfl rfl).1

/-- A concrete session with a pending Basecamp nonce. -/
def c1Session : Session := { Session.empty with oauthState := some "abc" }

/-- C1 counterexample: a state-matching callback whose token exchange fails
does not remove the nonce — the response carries no Set-Cookie, so the
browser session still holds the nonce — and a second callback presenting the
same state value passes validation and reaches a second token exchange,
refuting single-use consumption regardless of outcome. -/
theorem csrfNonce_singleUse_cex :
    (authExchangeAction c1Session (some "c") (some "abc") true .fail 0).resp
        = .exchangeFailed
    ∧ (authExchangeAction c1Session (some "c") (some "abc") true .fail 0).cookie
        = .noHeader
    ∧ (persistedSession c1Session
        (authExchangeAction c1Session (some "c") (some "abc") true .fail 0).cookie).oauthState
        = some "abc"
    ∧ (authExchangeAction
        (persistedSession c1Session
          (authExchangeAction c1Session (some "c") (some "abc") true .fail 0).cookie)
        (some "c") (some "abc") true (.ok ⟨"T", "R", 10⟩) 0).didExchange = true
    ∧ (authExchangeAction
        (persistedSession c1Session
          (authExchangeAction c1Session (some "c") (some "abc") true .fail 0).cookie)
        (some "c") (some "abc") true (.ok ⟨"T", "R", 10⟩) 0).resp = .success "/" := by
  refine ⟨rfl, rfl, rfl, rfl, rfl⟩

/-- C1 as amended: the nonce is consumed exactly on a state-matching callback
whose token exchange succeeds.  After such a success a second callback with
the same state reaches no second token exchange: the Basecamp exchange
endpoint rejects it as invalid-state, and the Onshape callback takes its
session-lost restart branch.  When the exchange fails (and likewise on a
mismatched state or an error callback) no Set-Cookie is attached, so the
nonce remains pending in the browser session. -/
theorem csrfNonce_consumed_on_success (s : Session) (code : Option String)
    (st st2 : String) (tr : TokenResponse) (now now2 : Int) (ex2 : FetchResult)
    (hcode : truthy code = true)
    (hb : s.oauthState = some st) (hbne : st ≠ "")
    (ho : s.onshapeOauthState = some st2) (hone : st2 ≠ "") :
    -- Basecamp exchange endpoint, successful exchange: nonce consumed, replay rejected
    ((persistedSession s
        (authExchangeAction s code (some st) true (.ok tr) now).cookie).oauthState = none
      ∧ (authExchangeAction
          (persistedSession s (authExchangeAction s code (some st) true (.ok tr) now).cookie)
          code (some st) true ex2 now2)
        = ⟨.invalidState, .noHeader, false⟩)
    -- Basecamp exchange endpoint, failed exchange: no Set-Cookie, nonce still pending
    ∧ ((authExchangeAction s code (some st) true .fail now).cookie = .noHeader
      ∧ (persistedSession s
          (authExchangeAction s code (some st) true .fail now).cookie).oauthState = some st)
    -- Onshape callback, successful exchange: nonce consumed, replay restarts the flow
    ∧ ((persistedSession s
          (onshapeCallbackLoader s code (some st2) none true (.ok tr) now).cookie).onshapeOauthState
          = none
      ∧ (onshapeCallbackLoader
          (persistedSession s
            (onshapeCallbackLoader s code (some st2) none true (.ok tr) now).cookie)
          code (some st2) none true ex2 now2).resp = .restartRedirect
      ∧ (onshapeCallbackLoader
          (persistedSession s
            (onshapeCallbackLoader s code (some st2) none true (.ok tr) now).cookie)
          code (some st2) none true ex2 now2).didExchange = false)
    -- Onshape callback, failed exchange: no Set-Cookie, nonce still pending
    ∧ ((onshapeCallbackLoader s code (some st2) none true .fail now).cookie = .noHeader
      ∧ (persistedSession s
          (onshapeCallbackLoader s code (some st2) none true .fail now).cookie).onshapeOauthState
          = some st2) := by
  have hstE : st.isEmpty = false := by
    cases h2 : st.isEmpty
    · rfl
    · exact absurd ((String.isEmpty_iff st).mp (by simp [h2])) hbne
  have hst2E : st2.isEmpty = false := by
    cases h2 : st2.isEmpty
    · rfl
    · exact absurd ((String.isEmpty_iff st2).mp (by simp [h2])) hone
  have hstt : truthy (some st) = true := by simp [truthy, hstE]
  have hst2t : truthy (some st2) = true := by simp [truthy, hst2E]
  have hbt : truthy s.oauthState = true := by rw [hb]; exact hstt
  have hot : truthy s.onshapeOauthState = true := by rw [ho]; exact hst2t
  have hex1 : authExchangeAction s code (some st) true (.ok tr) now
      = ⟨.success (strOr s.oauthRedirect "/"),
         .commit { s with accessToken := some tr.access_token,
                          refreshToken := some tr.refresh_token,
                          expiresAt := some (now + tr.expires_in * 1000),
                          oauthState := none, oauthRedirect := none }, true⟩ := by
    unfold authExchangeAction
    simp [hcode, hstt, hbt, hb]
  have hexf : authExchangeAction s code (some st) true .fail now
      = ⟨.exchangeFailed, .noHeader, true⟩ := by
    unfold authExchangeAction
    simp [hcode, hstt, hbt, hb]
  have hcb1 : onshapeCallbackLoader s code (some st2) none true (.ok tr) now
      = ⟨.signinRedirect,
         .commit { s with onshapeAccessToken := some tr.access_token,
                          onshapeRefreshToken := some tr.refresh_token,
                          onshapeExpiresAt := some (now + tr.expires_in * 1000),
                          onshapeOauthState := none,
                          onshapeAuthRedirectCount := none }, true, false⟩ := by
    unfold onshapeCallbackLoader
    simp [hcode, hst2t, hot, ho, show truthy none = false from rfl]
  have hcbf : onshapeCallbackLoader s code (some st2) none true .fail now
      = ⟨.errorRedirect "Failed to exchange authorization code",
         .noHeader, true, true⟩ := by
    unfold onshapeCallbackLoader
    simp [hcode, hst2t, hot, ho, show truthy none = false from rfl]
  have hps : persistedSession s
        (authExchangeAction s code (some st) true (.ok tr) now).cookie
      = { s with accessToken := some tr.access_token,
                 refreshToken := some tr.refresh_token,
                 expiresAt := some (now + tr.expires_in * 1000),
                 oauthState := none, oauthRedirect := none } := by
    rw [hex1]
    rfl
  have hpcb : persistedSession s
        (onshapeCallbackLoader s code (some st2) none true (.ok tr) now).cookie
      = { s with onshapeAccessToken := some tr.access_token,
                 onshapeRefreshToken := some tr.refresh_token,
                 onshapeExpiresAt := some (now + tr.expires_in * 1000),
                 onshapeOauthState := none,
                 onshapeAuthRedirectCount := none } := by
    rw [hcb1]
    rfl
  refine ⟨⟨?_, ?_⟩, ⟨?_, ?_⟩, ⟨?_, ?_, ?_⟩, ⟨?_, ?_⟩⟩
  · simp [hps]
  · rw [hps]
    unfold authExchangeAction
    simp [hcode, hstt, show truthy none = false from rfl]
  · simp [hexf]
  · simp [hexf, persistedSession, hb]
  · simp [hpcb]
  · rw [hpcb]
    unfold onshapeCallbackLoader
    simp [hcode, hst2t, show truthy none = false from rfl]
  · rw [hpcb]
    unfold onshapeCallbackLoader
    simp [hcode, hst2t, show truthy none = false from rfl]
  · simp [hcbf]
  · simp [hcbf, persistedSession, ho]

/-- Witness for `csrfNonce_consumed_on_success` at a session with both
nonces pending. -/
theorem csrfNonce_consumed_on_success_witness :
    (persistedSession { c1Session with onshapeOauthState := some "xyz" }
        (authExchangeAction { c1Session with onshapeOauthState := some "xyz" }
          (some "c") (some "abc") true (.ok ⟨"T", "R", 10⟩) 0).cookie).oauthState = none :=
  (csrfNonce_consumed_on_success { c1Session with onshapeOauthState := some "xyz" }
    (some "c") "abc" "xyz" ⟨"T", "R", 10⟩ 0 0 .fail
    rfl rfl (by decide) rfl (by decide)).1.1

/-- C4 counterexample: a callback to the Basecamp exchange endpoint carrying
an authorization code while the session holds no pending nonce at all is
answered with a terminal invalid-state error and no session change — the
handler neither destroys the session nor restarts the flow. -/
theorem noNonce_restart_cex :
    (authExchangeAction Session.empty (some "c") (some "X") true
        (.ok ⟨"T", "R", 10⟩) 0).resp = .invalidState
    ∧ (authExchangeAction Session.empty (some "c") (some "X") true
        (.ok ⟨"T", "R", 10⟩) 0).cookie = .noHeader
    ∧ (authExchangeAction Session.empty (some "c") (some "X") true
        (.ok ⟨"T", "R", 10⟩) 0).didExchange = false := by
  refine ⟨rfl, rfl, rfl⟩

/-- C4 as amended: only the Onshape callback treats a code-carrying callback
with no pending nonce as session loss — it invokes session destruction and
redirects to the start of the authorization flow, whose initiator then
produces a fresh authorization URL built from a newly generated nonce and
stores that nonce; the Basecamp exchange endpoint instead returns a terminal
invalid-state error.  Neither handler reaches a token exchange. -/
theorem noNonce_onshape_restarts (s : Session) (code state : Option String)
    (creds : Bool) (ex : FetchResult) (now : Int)
    (clientId redirectUri fresh : String)
    (hcode : truthy code = true)
    (hnonce : truthy s.onshapeOauthState = false)
    (htok : truthy s.onshapeAccessToken = false)
    (hcid : clientId.isEmpty = false) (huri : redirectUri.isEmpty = false)
    (hbnonce : truthy s.oauthState = false) (hstate : truthy state = true) :
    (onshapeCallbackLoader s code state none creds ex now
        = ⟨.restartRedirect, .noHeader, false, true⟩)
    ∧ (let s1 := persistedSession s
          (onshapeCallbackLoader s code state none creds ex now).cookie
       ∃ s2, authOnshapeLoader s1 none clientId redirectUri fresh
            = ⟨.authRedirect (onshapeAuthorizationUrl redirectUri clientId (some fresh)),
               .commit s2⟩
          ∧ s2.onshapeOauthState = some fresh)
    ∧ authExchangeAction s code state creds ex now
        = ⟨.invalidState, .noHeader, false⟩ := by
  have hcb : onshapeCallbackLoader s code state none creds ex now
      = ⟨.restartRedirect, .noHeader, false, true⟩ := by
    unfold onshapeCallbackLoader
    have hmm : (truthy state = false) ∨ state ≠ s.onshapeOauthState := by
      by_cases h : state = s.onshapeOauthState
      · left; rw [h]; exact hnonce
      · right; exact h
    rcases hmm with h | h
    · simp [hcode, h, hnonce, show truthy none = false from rfl]
    · simp [hcode, h, hnonce, show truthy none = false from rfl]
  refine ⟨hcb, ?_, ?_⟩
  · have hp : persistedSession s
        (onshapeCallbackLoader s code state none creds ex now).cookie = s := by
      rw [hcb]
      rfl
    rw [hp]
    exact authOnshapeLoader_mints_nonce s none clientId redirectUri fresh
      htok hcid huri
  · unfold authExchangeAction
    simp [hcode, hstate, hbnonce]

/-- Witness for `noNonce_onshape_restarts` at an empty session. -/
theorem noNonce_onshape_restarts_witness :
    onshapeCallbackLoader Session.empty (some "c") (some "X") none true
        (.ok ⟨"T", "R", 10⟩) 0
      = ⟨.restartRedirect, .noHeader, false, true⟩ :=
  (noNonce_onshape_restarts Session.empty (some "c") (some "X") true
    (.ok ⟨"T", "R", 10⟩) 0 "cid" "ruri" "bb" rfl rfl rfl rfl rfl rfl rfl).1

/-- A concrete session holding both providers' tokens and a matching pending
Basecamp nonce. -/
def c6Session : Session :=
  { Session.empty with oauthState := some "abc", onshapeOauthState := some "xyz",
                       onshapeAccessToken := some "OT", accessToken := some "BT" }

/-- C6 counterexample: a state-matching callback whose token exchange fails
does not destroy the session — the Basecamp exchange endpoint answers with a
terminal error carrying no Set-Cookie at all, so the browser session keeps
every token, nonce and pending field it had. -/
theorem exchangeFailure_destroy_cex :
    (authExchangeAction c6Session (some "c") (some "abc") true .fail 0).resp
        = .exchangeFailed
    ∧ (authExchangeAction c6Session (some "c") (some "abc") true .fail 0).cookie
        = .noHeader
    ∧ persistedSession c6Session
        (authExchangeAction c6Session (some "c") (some "abc") true .fail 0).cookie
        = c6Session
    ∧ c6Session.accessToken = some "BT"
    ∧ c6Session.oauthState = some "abc" := by
  refine ⟨rfl, rfl, rfl, rfl, rfl⟩

/-- C6 as amended: when the state matched but the code-for-token exchange
fails, both handlers surface a terminal error and retry nothing; but neither
response carries a Set-Cookie, so the browser session persists unchanged —
the Basecamp exchange endpoint performs no session operation at all, and the
Onshape callback invokes `destroySession` without attaching the resulting
removal cookie to its redirect. -/
theorem exchangeFailure_terminal_no_destroy (s : Session) (code : Option String)
    (st st2 : String) (now : Int)
    (hcode : truthy code = true)
    (hb : s.oauthState = some st) (hbne : st ≠ "")
    (ho : s.onshapeOauthState = some st2) (hone : st2 ≠ "") :
    (authExchangeAction s code (some st) true .fail now
        = ⟨.exchangeFailed, .noHeader, true⟩
      ∧ persistedSession s
          (authExchangeAction s code (some st) true .fail now).cookie = s)
    ∧ (onshapeCallbackLoader s code (some st2) none true .fail now
        = ⟨.errorRedirect "Failed to exchange authorization code",
           .noHeader, true, true⟩
      ∧ persistedSession s
          (onshapeCallbackLoader s code (some st2) none true .fail now).cookie = s) := by
  have hstE : st.isEmpty = false := by
    cases h2 : st.isEmpty
    · rfl
    · exact absurd ((String.isEmpty_iff st).mp (by simp [h2])) hbne
  have hst2E : st2.isEmpty = false := by
    cases h2 : st2.isEmpty
    · rfl
    · exact absurd ((String.isEmpty_iff st2).mp (by simp [h2])) hone
  have hstt : truthy (some st) = true := by simp [truthy, hstE]
  have hst2t : truthy (some st2) = true := by simp [truthy, hst2E]
  have hbt : truthy s.oauthState = true := by rw [hb]; exact hstt
  have hot : truthy s.onshapeOauthState = true := by rw [ho]; exact hst2t
  have hexf : authExchangeAction s code (some st) true .fail now
      = ⟨.exchangeFailed, .noHeader, true⟩ := by
    unfold authExchangeAction
    simp [hcode, hstt, hbt, hb]
  have hcbf : onshapeCallbackLoader s code (some st2) none true .fail now
      = ⟨.errorRedirect "Failed to exchange authorization code",
         .noHeader, true, true⟩ := by
    unfold onshapeCallbackLoader
    simp [hcode, hst2t, hot, ho, show truthy none = false from rfl]
  refine ⟨⟨hexf, ?_⟩, hcbf, ?_⟩
  · rw [hexf]
    rfl
  · rw [hcbf]
    rfl

/-- Witness for `exchangeFailure_terminal_no_destroy` at the concrete
session with both tokens and both nonces. -/
theorem exchangeFailure_terminal_no_destroy_witness :
    persistedSession c6Session
        (onshapeCallbackLoader c6Session (some "c") (some "xyz") none true
          .fail 0).cookie = c6Session :=
  (exchangeFailure_terminal_no_destroy c6Session (some "c") "abc" "xyz" 0
    rfl rfl (by decide) rfl (by decide)).2.2

/-- A gate evaluation with Onshape unauthenticated, no error parameter and
the counter strictly below the bound: redirect, counter incremented. -/
theorem homeLoader_unauth_redirect (s : Session) (creds : Bool)
    (r1 r2 : FetchResult) (now : Int) (n : Int)
    (htok : truthy s.onshapeAccessToken = false)
    (hcn : numOr0 s.onshapeAuthRedirectCount = n) (hlt : n < 2) :
    homeLoader s none creds r1 r2 now
      = ⟨.redirectAuth, .commit { s with onshapeAuthRedirectCount := some (n + 1) }⟩ := by
  unfold homeLoader
  simp [htok, hcn, hlt]

/-- A gate evaluation with Onshape unauthenticated, no error parameter and
the counter at the bound: terminal error response with no Set-Cookie (the
counter unset happens only on the in-memory session and is never attached). -/
theorem homeLoader_unauth_stop (s : Session) (creds : Bool)
    (r1 r2 : FetchResult) (now : Int) (n : Int)
    (htok : truthy s.onshapeAccessToken = false)
    (hcn : numOr0 s.onshapeAuthRedirectCount = n) (hge : ¬ n < 2) :
    homeLoader s none creds r1 r2 now
      = ⟨.data false false (some onshapeLoopError), .noHeader⟩ := by
  unfold homeLoader
  simp [htok, hcn, hge]

/-- The concrete protected-page request trace from an empty session. -/
def gw : ℕ → Session
  | 0 => Session.empty
  | i + 1 => homeNext (gw i) none true .fail .fail 0

/-- C2 counterexample: iterating the home loader from an empty session with
Onshape unauthenticated and no error parameter, the third request is
answered with the terminal loop error, but its response carries no
Set-Cookie, so the persisted redirect counter is not cleared — the browser
session still holds the bound value 2 afterwards. -/
theorem dualAuthGate_counter_clear_cex :
    (homeLoader (gw 2) none true .fail .fail 0).resp
        = .data false false (some onshapeLoopError)
    ∧ (homeLoader (gw 2) none true .fail .fail 0).cookie = .noHeader
    ∧ (gw 3).onshapeAuthRedirectCount = some 2 := by
  refine ⟨rfl, rfl, rfl⟩

/-- C2 as amended: along any sequence of protected-page requests that starts
from a session with no redirect counter and an unauthenticated Onshape
provider and carries no error parameter, the gate auto-redirects on the
first two requests (each redirect response attaching a Set-Cookie that
writes counter value 1 then 2), and from the third request on returns the
terminal loop error instead of redirecting again; the counter unset in that
branch is computed only on the in-memory session and its response attaches
no Set-Cookie, so the persisted counter stays at the bound (the session is
unchanged) and every later such request is also answered with the terminal
error.  No such sequence contains more than 2 automatic redirects. -/
theorem dualAuthGate_redirect_bound (f : ℕ → Session)
    (c : ℕ → Bool) (a b : ℕ → FetchResult) (t : ℕ → Int)
    (hstep : ∀ i, f (i + 1) = homeNext (f i) none (c i) (a i) (b i) (t i))
    (htok : truthy (f 0).onshapeAccessToken = false)
    (hcnt : (f 0).onshapeAuthRedirectCount = none) :
    (homeLoader (f 0) none (c 0) (a 0) (b 0) (t 0)).resp = .redirectAuth
    ∧ (f 1).onshapeAuthRedirectCount = some 1
    ∧ (homeLoader (f 1) none (c 1) (a 1) (b 1) (t 1)).resp = .redirectAuth
    ∧ (f 2).onshapeAuthRedirectCount = some 2
    ∧ homeLoader (f 2) none (c 2) (a 2) (b 2) (t 2)
        = ⟨.data false false (some onshapeLoopError), .noHeader⟩
    ∧ (∀ i, 2 ≤ i → f i = f 2
        ∧ (f i).onshapeAuthRedirectCount = some 2
        ∧ (homeLoader (f i) none (c i) (a i) (b i) (t i)).resp
            = .data false false (some onshapeLoopError))
    ∧ ∀ k, (∀ i, i < k →
        (homeLoader (f i) none (c i) (a i) (b i) (t i)).resp = .redirectAuth) →
        k ≤ 2 := by
  have h0 : homeLoader (f 0) none (c 0) (a 0) (b 0) (t 0)
      = ⟨.redirectAuth,
         .commit { f 0 with onshapeAuthRedirectCount := some (0 + 1) }⟩ :=
    homeLoader_unauth_redirect (f 0) (c 0) (a 0) (b 0) (t 0) 0 htok
      (by simp [hcnt, numOr0]) (by norm_num)
  have hf1 : f 1 = { f 0 with onshapeAuthRedirectCount := some (0 + 1) } := by
    have h := hstep 0
    unfold homeNext at h
    rw [h0] at h
    exact h
  have htok1 : truthy (f 1).onshapeAccessToken = false := by
    rw [hf1]; exact htok
  have hc1 : (f 1).onshapeAuthRedirectCount = some 1 := by
    rw [hf1]; norm_num
  have h1 : homeLoader (f 1) none (c 1) (a 1) (b 1) (t 1)
      = ⟨.redirectAuth,
         .commit { f 1 with onshapeAuthRedirectCount := some (1 + 1) }⟩ :=
    homeLoader_unauth_redirect (f 1) (c 1) (a 1) (b 1) (t 1) 1 htok1
      (by simp [hc1, numOr0]) (by norm_num)
  have hf2 : f 2 = { f 1 with onshapeAuthRedirectCount := some (1 + 1) } := by
    have h := hstep 1
    unfold homeNext at h
    rw [h1] at h
    exact h
  have htok2 : truthy (f 2).onshapeAccessToken = false := by
    rw [hf2]; exact htok1
  have hc2 : (f 2).onshapeAuthRedirectCount = some 2 := by
    rw [hf2]; norm_num
  have hstop : ∀ j : ℕ, (cj : Bool) → (aj bj : FetchResult) → (tj : Int) →
      f j = f 2 →
      homeLoader (f j) none cj aj bj tj
        = ⟨.data false false (some onshapeLoopError), .noHeader⟩ := by
    intro j cj aj bj tj hj
    rw [hj]
    exact homeLoader_unauth_stop (f 2) cj aj bj tj 2 htok2
      (by simp [hc2, numOr0]) (by norm_num)
  have h2 : homeLoader (f 2) none (c 2) (a 2) (b 2) (t 2)
      = ⟨.data false false (some onshapeLoopError), .noHeader⟩ :=
    hstop 2 (c 2) (a 2) (b 2) (t 2) rfl
  have hstable : ∀ i, 2 ≤ i → f i = f 2 := by
    intro i hi
    induction i with
    | zero => omega
    | succ n ih =>
      by_cases hn : 2 ≤ n
      · have hfn := ih hn
        have h := hstep n
        unfold homeNext at h
        rw [hstop n (c n) (a n) (b n) (t n) hfn] at h
        exact h.trans hfn
      · have hn1 : n = 1 := by omega
        subst hn1
        rfl
  refine ⟨by rw [h0], hc1, by rw [h1], hc2, h2, ?_, ?_⟩
  · intro i hi
    refine ⟨hstable i hi, ?_, ?_⟩
    · rw [hstable i hi]
      exact hc2
    · rw [hstop i (c i) (a i) (b i) (t i) (hstable i hi)]
  · intro k hk
    by_contra hk2
    have h3 : 2 < k := by omega
    have hr2 := hk 2 h3
    rw [h2] at hr2
    simp at hr2

/-- Witness for `dualAuthGate_redirect_bound`: iterating the loader from an
empty session, the third request is answered with the terminal loop error
with no Set-Cookie, and the persisted counter afterwards still holds 2. -/
theorem dualAuthGate_redirect_bound_witness :
    homeLoader (gw 2) none true .fail .fail 0
        = ⟨.data false false (some onshapeLoopError), .noHeader⟩
    ∧ (gw 3).onshapeAuthRedirectCount = some 2 :=
  ⟨(dualAuthGate_redirect_bound gw (fun _ => true) (fun _ => .fail)
      (fun _ => .fail) (fun _ => 0) (fun _ => rfl) rfl rfl).2.2.2.2.1,
   ((dualAuthGate_redirect_bound gw (fun _ => true) (fun _ => .fail)
      (fun _ => .fail) (fun _ => 0) (fun _ => rfl) rfl rfl).2.2.2.2.2.1
      3 (by norm_num)).2.1⟩

end Basecamp
